import Mathlib

/-!
Shallow embedding of the SRAG report pipeline (src/src/graph.py and the
agents/tools it drives) together with proofs about the orchestration
contract, the metrics rate arithmetic and the preprocessing control flow.

The pipeline state is a Python dict passed between langgraph nodes; we
model it as an insertion-ordered association list from string keys to
values that may themselves be Python None (hence Option String values).
Collaborator behaviour (network, file system, pandas, LLMs) is abstracted
into an environment record of functions; the node bodies themselves are
translated line by line from graph.py.
-/

/-- PyDict models a Python dict from artifact-key strings to values that
may be the Python value None.  Insertion order is preserved, matching
CPython dict semantics: updating an existing key keeps its position,
a fresh key is appended at the end. -/
abbrev PyDict := List (String × Option String)

/-- Python dict assignment d[k] = v : update in place when the key is
present, append otherwise. -/
def dictSet : PyDict → String → Option String → PyDict
  | [], k, v => [(k, v)]
  | e :: rest, k, v =>
    if e.1 = k then (k, v) :: rest else e :: dictSet rest k v

/-- Python d.get(k) : returns the stored value, or None when the key is
absent (an absent key and a key stored with value None are observed the
same way by .get, exactly as in the source). -/
def dictGet : PyDict → String → Option String
  | [], _ => none
  | e :: rest, k => if e.1 = k then e.2 else dictGet rest k

/-- Python k in d : key membership, regardless of the stored value. -/
def dictHasKey : PyDict → String → Bool
  | [], _ => false
  | e :: rest, k => e.1 = k || dictHasKey rest k

theorem dictGet_dictSet_same (d : PyDict) (k : String) (v : Option String) :
    dictGet (dictSet d k v) k = v := by
  induction d with
  | nil => simp [dictSet, dictGet]
  | cons e rest ih =>
    by_cases h : e.1 = k <;> simp [dictSet, dictGet, h, ih]

theorem dictGet_dictSet_ne (d : PyDict) (k k2 : String) (v : Option String)
    (h : k2 ≠ k) : dictGet (dictSet d k v) k2 = dictGet d k2 := by
  induction d with
  | nil => simp [dictSet, dictGet, h, Ne.symm h]
  | cons e rest ih =>
    by_cases he : e.1 = k
    · subst he
      simp [dictSet, dictGet, h, Ne.symm h]
    · by_cases he2 : e.1 = k2 <;> simp [dictSet, dictGet, he, he2, ih, h]

theorem dictHasKey_dictSet_same (d : PyDict) (k : String) (v : Option String) :
    dictHasKey (dictSet d k v) k = true := by
  induction d with
  | nil => simp [dictSet, dictHasKey]
  | cons e rest ih =>
    by_cases h : e.1 = k <;> simp [dictSet, dictHasKey, h, ih]

theorem dictHasKey_dictSet_ne (d : PyDict) (k k2 : String) (v : Option String)
    (h : k2 ≠ k) : dictHasKey (dictSet d k v) k2 = dictHasKey d k2 := by
  induction d with
  | nil => simp [dictSet, dictHasKey, Ne.symm h]
  | cons e rest ih =>
    by_cases he : e.1 = k
    · subst he
      simp [dictSet, dictHasKey, Ne.symm h]
    · simp [dictSet, dictHasKey, he, ih]

/-- Python exceptions that can escape a node body in graph.py.
typeError models subscripting a None result (TypeError at runtime);
valueError models the configuration ValueError re-raised by the agent
constructors; missingDependency is the failure kind the specification
describes for an absent required state key — the translated code never
constructs it, it exists so the spec-side claim can be stated. -/
inductive PyErr where
  | typeError
  | valueError
  | missingDependency (key : String)
deriving DecidableEq, Repr

/-- Result dict of DataDownloaderAgent.run / DataDownloaderTool.run_download_process:
on success the tool returns both keys, where metadata_file_path can itself
be None when saving metadata failed after a successful download. -/
structure DownloadResult where
  downloaded_file_path : String
  metadata_file_path : Option String
deriving DecidableEq, Repr

/-- Result dict of MetricsCalculatorTool.run_metrics_calculation on success. -/
structure MetricsResult where
  periods_file_path : String
  metrics_file_path : String
deriving DecidableEq, Repr

/-- Result dict of VisualizationsTool.run_visualization_process on success. -/
structure VisualizationsResult where
  last_30_days_json_file_path : String
  last_30_days_plot_file_path : String
  last_12_months_json_file_path : String
  last_12_months_plot_file_path : String
deriving DecidableEq, Repr

/-- Collaborator environment: the observable behaviour of each
Agent(...).run() call made by a graph.py node.  Except.error e models the
agent constructor or body raising a Python exception; Except.ok none
models the agent returning None (its reported failure); Except.ok (some r)
models the agent returning its result dict.  For agents that return a
single-key dict we record the single path value. -/
structure Env where
  data_downloader_run : Except PyErr (Option DownloadResult)
  data_preprocessor_run : Option String → Except PyErr (Option String)
  metrics_calculator_run : Option String → Except PyErr (Option MetricsResult)
  visualizations_run : Option String → Except PyErr (Option VisualizationsResult)
  news_collector_run : Except PyErr (Option String)
  report_generator_run : Option String → Option String → Option String →
    Option String → Except PyErr (Option String)
  final_report_generator_run : Option String → Option String → Option String →
    Option String → Option String → Option String → Except PyErr (Option String)

/-- The seven graph nodes of FinancialReportWorkflow._build_graph. -/
inductive Stage where
  | data_downloader
  | data_preprocessor
  | metrics_calculator
  | visualizations
  | news_collector
  | report_generator
  | final_report_generator
deriving DecidableEq, Repr

/-- Node result: either the returned state dict, or a raised Python
exception paired with the state dict as it stood when the exception was
raised (no assignment in any node body precedes the subscript that can
raise, so that state is always the input state). -/
abbrev NodeResult := Except (PyErr × PyDict) PyDict

/-- FinancialReportWorkflow._node_data_downloader: runs the agent, then
assigns result subscripts into the state.  A None result makes the first
subscript raise TypeError before any assignment happens. -/
def node_data_downloader (env : Env) (st : PyDict) : NodeResult :=
  match env.data_downloader_run with
  | .error e => .error (e, st)
  | .ok none => .error (.typeError, st)
  | .ok (some r) =>
    .ok (dictSet (dictSet st "downloaded_file_path" (some r.downloaded_file_path))
          "metadata_file_path" r.metadata_file_path)

/-- FinancialReportWorkflow._node_data_preprocessor. -/
def node_data_preprocessor (env : Env) (st : PyDict) : NodeResult :=
  match env.data_preprocessor_run (dictGet st "downloaded_file_path") with
  | .error e => .error (e, st)
  | .ok none => .error (.typeError, st)
  | .ok (some p) => .ok (dictSet st "processed_data_file_path" (some p))

/-- FinancialReportWorkflow._node_metrics_calculator. -/
def node_metrics_calculator (env : Env) (st : PyDict) : NodeResult :=
  match env.metrics_calculator_run (dictGet st "processed_data_file_path") with
  | .error e => .error (e, st)
  | .ok none => .error (.typeError, st)
  | .ok (some r) =>
    .ok (dictSet (dictSet st "periods_file_path" (some r.periods_file_path))
          "metrics_file_path" (some r.metrics_file_path))

/-- FinancialReportWorkflow._node_visualizations, with the four
assignments in source order. -/
def node_visualizations (env : Env) (st : PyDict) : NodeResult :=
  match env.visualizations_run (dictGet st "processed_data_file_path") with
  | .error e => .error (e, st)
  | .ok none => .error (.typeError, st)
  | .ok (some r) =>
    .ok (dictSet (dictSet (dictSet (dictSet st
          "last_30_days_json_file_path" (some r.last_30_days_json_file_path))
          "last_30_days_plot_file_path" (some r.last_30_days_plot_file_path))
          "last_12_months_json_file_path" (some r.last_12_months_json_file_path))
          "last_12_months_plot_file_path" (some r.last_12_months_plot_file_path))

/-- FinancialReportWorkflow._node_news_collector. -/
def node_news_collector (env : Env) (st : PyDict) : NodeResult :=
  match env.news_collector_run with
  | .error e => .error (e, st)
  | .ok none => .error (.typeError, st)
  | .ok (some n) => .ok (dictSet st "news_file_path" (some n))

/-- FinancialReportWorkflow._node_report_generator. -/
def node_report_generator (env : Env) (st : PyDict) : NodeResult :=
  match env.report_generator_run (dictGet st "metrics_file_path")
      (dictGet st "last_30_days_json_file_path")
      (dictGet st "last_12_months_json_file_path")
      (dictGet st "news_file_path") with
  | .error e => .error (e, st)
  | .ok none => .error (.typeError, st)
  | .ok (some rp) => .ok (dictSet st "report_file_path" (some rp))

/-- FinancialReportWorkflow._node_final_report_generator. -/
def node_final_report_generator (env : Env) (st : PyDict) : NodeResult :=
  match env.final_report_generator_run (dictGet st "metadata_file_path")
      (dictGet st "periods_file_path")
      (dictGet st "metrics_file_path")
      (dictGet st "report_file_path")
      (dictGet st "last_30_days_plot_file_path")
      (dictGet st "last_12_months_plot_file_path") with
  | .error e => .error (e, st)
  | .ok none => .error (.typeError, st)
  | .ok (some f) => .ok (dictSet st "final_report_file_path" (some f))

/-- Dispatch from a stage name to its node body. -/
def runNode (env : Env) : Stage → PyDict → NodeResult
  | .data_downloader, st => node_data_downloader env st
  | .data_preprocessor, st => node_data_preprocessor env st
  | .metrics_calculator, st => node_metrics_calculator env st
  | .visualizations, st => node_visualizations env st
  | .news_collector, st => node_news_collector env st
  | .report_generator, st => node_report_generator env st
  | .final_report_generator, st => node_final_report_generator env st

/-- The fixed edge chain wired in FinancialReportWorkflow._build_graph:
entry point data_downloader, then one add_edge per consecutive pair,
ending at END after final_report_generator. -/
def stageOrder : List Stage :=
  [.data_downloader, .data_preprocessor, .metrics_calculator, .visualizations,
   .news_collector, .report_generator, .final_report_generator]

/-- Sequential execution of a list of stages over the state, as the
compiled linear langgraph performs it: each node runs on the state left by
the previous one; an exception raised in a node propagates immediately and
no later node runs. -/
def runStages (env : Env) : List Stage → PyDict → NodeResult
  | [], st => .ok st
  | s :: rest, st =>
    match runNode env s st with
    | .error e => .error e
    | .ok st2 => runStages env rest st2

/-- Instrumented execution that also records which stages were invoked,
in invocation order. -/
def runStagesTrace (env : Env) : List Stage → PyDict → NodeResult × List Stage
  | [], st => (.ok st, [])
  | s :: rest, st =>
    match runNode env s st with
    | .error e => (.error e, [s])
    | .ok st2 =>
      let r := runStagesTrace env rest st2
      (r.1, s :: r.2)

/-- FinancialReportWorkflow.run: invoke the compiled graph on the empty
initial state. -/
def workflow_run (env : Env) : NodeResult :=
  runStages env stageOrder []

/-- The stages actually invoked during a full run. -/
def stageTrace (env : Env) : List Stage :=
  (runStagesTrace env stageOrder []).2

/-- Output keys each node assigns into the state, from the node bodies in
graph.py. -/
def declaredOutputs : Stage → List String
  | .data_downloader => ["downloaded_file_path", "metadata_file_path"]
  | .data_preprocessor => ["processed_data_file_path"]
  | .metrics_calculator => ["periods_file_path", "metrics_file_path"]
  | .visualizations =>
      ["last_30_days_json_file_path", "last_30_days_plot_file_path",
       "last_12_months_json_file_path", "last_12_months_plot_file_path"]
  | .news_collector => ["news_file_path"]
  | .report_generator => ["report_file_path"]
  | .final_report_generator => ["final_report_file_path"]

/-- The full artifact-key vocabulary: the union, in stage order, of every
declared output key; these are exactly the twelve fields of the AgentState
TypedDict in graph.py. -/
def declaredArtifactKeys : List String :=
  (stageOrder.map declaredOutputs).flatten

/-!
Embedding of MetricsCalculatorTool (src/src/tools/metrics_calculator.py).
A processed CSV row carries the columns the tool touches; dates are day
numbers on an integer timeline; the rate arithmetic is over exact
rationals, with an explicit value for the Python float("inf") that
_calculate_increase_rate can return.  The guarded branches proved about
below compute exactly 0.0 or inf in Python floats as well, so the
rational idealization is faithful where the claims read it.
-/

/-- A row of the processed data frame, with the columns read by the
metrics calculator. -/
structure CaseRecord where
  data_notificacao : Int
  evolucao : String
  uti : String
  vacina : String
  vacina_cov : String
deriving DecidableEq, Repr

/-- Pandas boolean-mask filtering on DATA_NOTIFICACAO between two bounds,
as used at the top of every rate method. -/
def filterPeriod (df : List CaseRecord) (start_date end_date : Int) : List CaseRecord :=
  df.filter (fun r => decide (start_date ≤ r.data_notificacao ∧
    r.data_notificacao ≤ end_date))

/-- A Python float value as produced by the rate methods: a finite value
or positive infinity. -/
inductive FloatVal where
  | val (q : ℚ)
  | inf
deriving DecidableEq, Repr

/-- MetricsCalculatorTool._calculate_increase_rate. -/
def calculate_increase_rate (df : List CaseRecord)
    (current_period_start current_period_end
     previous_period_start previous_period_end : Int) : FloatVal :=
  let current_cases := (filterPeriod df current_period_start current_period_end).length
  let previous_cases := (filterPeriod df previous_period_start previous_period_end).length
  if previous_cases = 0 then
    if current_cases > 0 then .inf else .val 0
  else
    .val ((((current_cases : ℚ) - (previous_cases : ℚ)) / (previous_cases : ℚ)) * 100)

/-- MetricsCalculatorTool._calculate_mortality_rate. -/
def calculate_mortality_rate (df : List CaseRecord)
    (start_date end_date : Int) : ℚ :=
  let period_df := filterPeriod df start_date end_date
  let evolution_defined := period_df.filter
    (fun r => decide (r.evolucao = "CURA" ∨ r.evolucao = "OBITO"))
  if evolution_defined.isEmpty then 0
  else
    let deaths := (evolution_defined.filter (fun r => decide (r.evolucao = "OBITO"))).length
    ((deaths : ℚ) / (evolution_defined.length : ℚ)) * 100

/-- MetricsCalculatorTool._calculate_uti_occupancy_rate. -/
def calculate_uti_occupancy_rate (df : List CaseRecord)
    (start_date end_date : Int) : ℚ :=
  let period_df := filterPeriod df start_date end_date
  let uti_defined := period_df.filter
    (fun r => decide (r.uti = "SIM" ∨ r.uti = "NAO"))
  if uti_defined.isEmpty then 0
  else
    let uti_cases := (uti_defined.filter (fun r => decide (r.uti = "SIM"))).length
    ((uti_cases : ℚ) / (uti_defined.length : ℚ)) * 100

/-- MetricsCalculatorTool._calculate_vaccination_rate; vaccine_column
selects the VACINA or VACINA_COV column of a row. -/
def calculate_vaccination_rate (df : List CaseRecord)
    (start_date end_date : Int) (vaccine_column : CaseRecord → String) : ℚ :=
  let period_df := filterPeriod df start_date end_date
  let vaccine_defined := period_df.filter
    (fun r => decide (vaccine_column r = "SIM" ∨ vaccine_column r = "NAO"))
  if vaccine_defined.isEmpty then 0
  else
    let vaccinated_cases :=
      (vaccine_defined.filter (fun r => decide (vaccine_column r = "SIM"))).length
    ((vaccinated_cases : ℚ) / (vaccine_defined.length : ℚ)) * 100

/-- A file system mapping processed-CSV paths to their parsed contents,
for MetricsCalculatorTool._load_and_preprocess_data. -/
abbrev CsvFiles := List (String × List CaseRecord)

/-- MetricsCalculatorTool._load_and_preprocess_data: pd.read_csv plus date
parsing, returning None on any read failure.  Called with filepath None
(the stage invoked without processed_data_file_path), pd.read_csv raises
and the blanket except returns None as well. -/
def load_and_preprocess_data (fs : CsvFiles) :
    Option String → Option (List CaseRecord)
  | none => none
  | some p =>
    match fs.find? (fun e => decide (e.1 = p)) with
    | some e => some e.2
    | none => none

/-- MetricsCalculatorTool.run_metrics_calculation, at the granularity the
claims read it: the data load is attempted first and a failed load aborts
with None; otherwise the metrics are computed with the rate methods above,
the JSON files are written (write errors are swallowed by _save_json_file)
and the two result paths are returned unconditionally. -/
def run_metrics_calculation (fs : CsvFiles)
    (processed_data_file_path : Option String) (output_dir : String) :
    Option MetricsResult :=
  match load_and_preprocess_data fs processed_data_file_path with
  | none => none
  | some _df =>
    some { periods_file_path := output_dir ++ "/periods.json"
           metrics_file_path := output_dir ++ "/metrics.json" }

/-- MetricsCalculatorAgent construction plus run, as observed by the
metrics node: the tool is constructed (configuration assumed loadable, a
config failure would raise valueError instead) and run; the agent passes a
truthy result dict through and turns a falsy one into None, which is the
identity on the Option returned by the tool. -/
def metrics_agent_run (fs : CsvFiles) (output_dir : String)
    (processed_data_file_path : Option String) :
    Except PyErr (Option MetricsResult) :=
  Except.ok (run_metrics_calculation fs processed_data_file_path output_dir)

/-!
Embedding of DataPreprocessorTool (src/src/tools/data_preprocessor.py).
Cell values are Python floats or the strings they are mapped to; a raw row
carries the DT_NOTIFIC date (None for NaN) and the four mapped columns.
-/

/-- A pandas cell value relevant to the preprocessing maps: a numeric code
or a mapped string. -/
inductive CellVal where
  | num (q : ℚ)
  | str (s : String)
deriving DecidableEq, Repr

/-- A raw SRAG row restricted to the columns the cleaning step touches;
None models NaN. -/
structure RawRow where
  dt_notific : Option Int
  uti : Option CellVal
  vacina : Option CellVal
  vacina_cov : Option CellVal
  evolucao : Option CellVal
deriving DecidableEq, Repr

/-- A processed row after cleaning: the date column renamed to
DATA_NOTIFICACAO and the mapped columns filled. -/
structure ProcRow where
  data_notificacao : Int
  uti : CellVal
  vacina : CellVal
  vacina_cov : CellVal
  evolucao : CellVal
deriving DecidableEq, Repr

/-- The map_sim_nao dict from _clean_and_transform_data. -/
def map_sim_nao : List (CellVal × CellVal) :=
  [(.num 1, .str "SIM"), (.num 2, .str "NAO"), (.num 9, .str "IGNORADO")]

/-- The map_evolucao dict from _clean_and_transform_data. -/
def map_evolucao : List (CellVal × CellVal) :=
  [(.num 1, .str "CURA"), (.num 2, .str "OBITO"), (.num 9, .str "IGNORADO")]

/-- Pandas Series.replace with a mapping dict: a value that is a key of
the mapping is replaced, every other value is kept. -/
def applyReplace (mapping : List (CellVal × CellVal)) (v : CellVal) : CellVal :=
  match mapping.find? (fun e => decide (e.1 = v)) with
  | some e => e.2
  | none => v

/-- DataPreprocessorTool._process_mapped_columns on one cell:
fillna(9.0) then replace(map_sim_nao). -/
def process_mapped_cell (v : Option CellVal) : CellVal :=
  applyReplace map_sim_nao (v.getD (.num 9))

/-- DataPreprocessorTool._process_evolution_column on one cell:
fillna(9.0), replace(3.0, 2.0), then replace(map_evolucao). -/
def process_evolution_cell (v : Option CellVal) : CellVal :=
  applyReplace map_evolucao (applyReplace [(.num 3, .num 2)] (v.getD (.num 9)))

/-- DataPreprocessorTool._clean_and_transform_data: an empty frame is
returned untouched; otherwise rows with NaN DT_NOTIFIC are dropped
(_process_notification_date dropna), the date column is renamed, and the
UTI, VACINA, VACINA_COV and EVOLUCAO columns are mapped. -/
def clean_and_transform_data (df : List RawRow) : List ProcRow :=
  if df.isEmpty then []
  else
    df.filterMap (fun r =>
      match r.dt_notific with
      | none => none
      | some d =>
        some { data_notificacao := d
               uti := process_mapped_cell r.uti
               vacina := process_mapped_cell r.vacina
               vacina_cov := process_mapped_cell r.vacina_cov
               evolucao := process_evolution_cell r.evolucao })

/-- DataPreprocessorTool._save_processed_data: an empty frame writes
nothing and reports False; otherwise the write succeeds exactly when the
file system accepts it. -/
def save_processed_data (df : List ProcRow) (write_ok : Bool) : Bool :=
  if df.isEmpty then false else write_ok

/-- Collaborator behaviour for one run of DataPreprocessorTool: the
outcome of _load_raw_data (None on a missing file, read error or missing
columns), and whether the CSV and metadata writes succeed when attempted. -/
structure PreprocEnv where
  load_raw : Option (List RawRow)
  csv_write_ok : Bool
  metadata_write_ok : Bool
deriving Repr

/-- DataPreprocessorTool.run_preprocessing_process.  The second component
records whether the processed CSV was actually written to disk during the
run (the observable side effect the code cannot undo).  Source order: load
raw data, abort on None; clean; save the CSV, abort on failure; save the
metadata via _save_metadata, abort on failure; only then return the
single-key result dict. -/
def run_preprocessing_process (env : PreprocEnv) (output_path : String) :
    Option String × Bool :=
  match env.load_raw with
  | none => (none, false)
  | some df_raw =>
    let df_processed := clean_and_transform_data df_raw
    let csv_success := save_processed_data df_processed env.csv_write_ok
    if csv_success = false then (none, false)
    else if env.metadata_write_ok = false then (none, true)
    else (some output_path, true)

/-!
Helper lemmas about the orchestrator model.
-/

theorem runNode_error_state (env : Env) (s : Stage) (st : PyDict) (e : PyErr)
    (st2 : PyDict) (h : runNode env s st = .error (e, st2)) : st2 = st := by
  cases s <;>
    simp only [runNode, node_data_downloader, node_data_preprocessor,
      node_metrics_calculator, node_visualizations, node_news_collector,
      node_report_generator, node_final_report_generator] at h <;>
    (split at h <;> simp_all)

theorem runStages_append (env : Env) (l1 l2 : List Stage) (st : PyDict) :
    runStages env (l1 ++ l2) st =
      match runStages env l1 st with
      | .ok st1 => runStages env l2 st1
      | .error e => .error e := by
  induction l1 generalizing st with
  | nil => simp [runStages]
  | cons s rest ih =>
    simp only [List.cons_append, runStages]
    cases runNode env s st <;> simp [ih]

theorem runStagesTrace_fst (env : Env) (l : List Stage) (st : PyDict) :
    (runStagesTrace env l st).1 = runStages env l st := by
  induction l generalizing st with
  | nil => rfl
  | cons s rest ih =>
    simp only [runStagesTrace, runStages]
    cases runNode env s st <;> simp [ih]

theorem runStagesTrace_all_ok (env : Env) (l : List Stage) (st st1 : PyDict)
    (h : runStages env l st = .ok st1) : (runStagesTrace env l st).2 = l := by
  induction l generalizing st with
  | nil => rfl
  | cons s rest ih =>
    simp only [runStages] at h
    simp only [runStagesTrace]
    cases hr : runNode env s st with
    | error e => rw [hr] at h; simp at h
    | ok st2 =>
      rw [hr] at h
      simp [hr, ih st2 h]

theorem runStagesTrace_append_ok (env : Env) (l1 l2 : List Stage)
    (st st1 : PyDict) (h : runStages env l1 st = .ok st1) :
    (runStagesTrace env (l1 ++ l2) st).2 =
      l1 ++ (runStagesTrace env l2 st1).2 := by
  induction l1 generalizing st with
  | nil =>
    simp only [runStages] at h
    cases h
    simp
  | cons s rest ih =>
    simp only [runStages] at h
    cases hr : runNode env s st with
    | error e => rw [hr] at h; simp at h
    | ok st2 =>
      rw [hr] at h
      simp only [List.cons_append, runStagesTrace, hr]
      simp [ih st2 h]

theorem runStagesTrace_cons_error (env : Env) (s : Stage) (l : List Stage)
    (st : PyDict) (e : PyErr × PyDict) (h : runNode env s st = .error e) :
    (runStagesTrace env (s :: l) st).2 = [s] := by
  simp [runStagesTrace, h]

theorem take_succ_concat {α : Type} :
    ∀ (l : List α) (k : Nat) (h : k < l.length),
      List.take (k + 1) l = List.take k l ++ [l.get ⟨k, h⟩]
  | _ :: _, 0, _ => rfl
  | a :: l, k + 1, h => by
    have ih := take_succ_concat l k (Nat.lt_of_succ_lt_succ h)
    simp only [List.take_succ_cons, List.get_cons_succ, List.cons_append,
      List.cons.injEq, true_and]
    exact ih

theorem drop_eq_get_cons {α : Type} :
    ∀ (l : List α) (k : Nat) (h : k < l.length),
      List.drop k l = l.get ⟨k, h⟩ :: List.drop (k + 1) l
  | _ :: _, 0, _ => rfl
  | a :: l, k + 1, h => by
    have ih := drop_eq_get_cons l k (Nat.lt_of_succ_lt_succ h)
    simp only [List.drop_succ_cons, List.get_cons_succ]
    exact ih

theorem runStages_take_all_ok (env : Env) :
    ∀ (l : List Stage) (st st1 : PyDict) (k : Nat),
      runStages env l st = .ok st1 →
      ∃ st2, runStages env (List.take k l) st = .ok st2
  | [], st, st1, k, _ => ⟨st, by simp [runStages]⟩
  | s :: rest, st, st1, 0, _ => ⟨st, rfl⟩
  | s :: rest, st, st1, k + 1, h => by
    simp only [runStages] at h
    cases hr : runNode env s st with
    | error e => rw [hr] at h; simp at h
    | ok st2 =>
      rw [hr] at h
      obtain ⟨st3, h3⟩ := runStages_take_all_ok env rest st2 st1 k h
      exact ⟨st3, by simp [List.take_succ_cons, runStages, hr, h3]⟩

theorem stageTrace_spec (env : Env) :
    ∀ (l : List Stage) (st : PyDict),
      (runStagesTrace env l st).2 =
          List.take (runStagesTrace env l st).2.length l ∧
        ∀ k, k < (runStagesTrace env l st).2.length →
          ∃ st2, runStages env (List.take k l) st = .ok st2
  | [], st => by
    constructor
    · rfl
    · intro k hk
      simp [runStagesTrace] at hk
  | s :: rest, st => by
    cases hr : runNode env s st with
    | error e =>
      constructor
      · simp [runStagesTrace, hr]
      · intro k hk
        simp only [runStagesTrace, hr, List.length_cons, List.length_nil] at hk
        interval_cases k
        exact ⟨st, rfl⟩
    | ok st2 =>
      have ih := stageTrace_spec env rest st2
      constructor
      · simp only [runStagesTrace, hr, List.length_cons, List.take_succ_cons,
          List.cons.injEq, true_and]
        exact ih.1
      · intro k hk
        match k with
        | 0 => exact ⟨st, rfl⟩
        | j + 1 =>
          simp only [runStagesTrace, hr, List.length_cons,
            Nat.add_lt_add_iff_right] at hk
          obtain ⟨st3, h3⟩ := ih.2 j hk
          refine ⟨st3, ?_⟩
          simp [List.take_succ_cons, runStages, hr, h3]

/-!
Concrete collaborator environments used by witnesses and counterexamples.
-/

/-- A run in which every collaborator succeeds with a fixed dummy path. -/
def envAllOk : Env where
  data_downloader_run := .ok (some
    { downloaded_file_path := "/tmp/a.csv"
      metadata_file_path := some "/tmp/meta.json" })
  data_preprocessor_run := fun _ => .ok (some "/tmp/processed.csv")
  metrics_calculator_run := fun _ => .ok (some
    { periods_file_path := "/tmp/periods.json"
      metrics_file_path := "/tmp/metrics.json" })
  visualizations_run := fun _ => .ok (some
    { last_30_days_json_file_path := "/tmp/m30.json"
      last_30_days_plot_file_path := "/tmp/m30.png"
      last_12_months_json_file_path := "/tmp/m12.json"
      last_12_months_plot_file_path := "/tmp/m12.png" })
  news_collector_run := .ok (some "/tmp/news.json")
  report_generator_run := fun _ _ _ _ => .ok (some "/tmp/report.md")
  final_report_generator_run := fun _ _ _ _ _ _ => .ok (some "/tmp/final.html")

/-- A run whose download agent reports failure by returning None, the way
DataDownloaderAgent.run reports a failed download. -/
def envDownloadFail : Env :=
  { envAllOk with data_downloader_run := .ok none }

/-- A run whose visualizations agent reports failure by returning None. -/
def envVisFail : Env :=
  { envAllOk with visualizations_run := fun _ => .ok none }

/-- A run whose metrics stage has the real agent behaviour over an
arbitrary file system: metrics_agent_run is the translated
MetricsCalculatorAgent composed with MetricsCalculatorTool. -/
def envMetricsReal : Env :=
  { envAllOk with metrics_calculator_run := metrics_agent_run [] "output/metrics" }

/-- State of the pipeline after the first three stages of envAllOk or
envVisFail succeed. -/
def stateAfterMetrics : PyDict :=
  [("downloaded_file_path", some "/tmp/a.csv"),
   ("metadata_file_path", some "/tmp/meta.json"),
   ("processed_data_file_path", some "/tmp/processed.csv"),
   ("periods_file_path", some "/tmp/periods.json"),
   ("metrics_file_path", some "/tmp/metrics.json")]

/-- Final state of a fully successful envAllOk run. -/
def finalStateAllOk : PyDict :=
  [("downloaded_file_path", some "/tmp/a.csv"),
   ("metadata_file_path", some "/tmp/meta.json"),
   ("processed_data_file_path", some "/tmp/processed.csv"),
   ("periods_file_path", some "/tmp/periods.json"),
   ("metrics_file_path", some "/tmp/metrics.json"),
   ("last_30_days_json_file_path", some "/tmp/m30.json"),
   ("last_30_days_plot_file_path", some "/tmp/m30.png"),
   ("last_12_months_json_file_path", some "/tmp/m12.json"),
   ("last_12_months_plot_file_path", some "/tmp/m12.png"),
   ("news_file_path", some "/tmp/news.json"),
   ("report_file_path", some "/tmp/report.md"),
   ("final_report_file_path", some "/tmp/final.html")]

/-!
Claim theorems.
-/

/-- C1: the orchestrator executes the seven stages in the fixed total
order wired in _build_graph.  The invoked stages always form an
order-respecting prefix of the declared chain, and the stage at position
k of the chain is invoked only when running every stage before it
completed successfully from the empty initial state; a later stage never
starts before all earlier ones completed. -/
theorem C1_sequential_total_order (env : Env) (k : Nat)
    (hk : k < (stageTrace env).length) :
    stageTrace env = List.take (stageTrace env).length stageOrder ∧
      ∃ st, runStages env (List.take k stageOrder) [] = .ok st := by
  have h := stageTrace_spec env stageOrder []
  exact ⟨h.1, h.2 k hk⟩

/-- C1 witness: in the all-successful run the last stage is invoked and
every prior stage completed. -/
theorem C1_sequential_total_order_witness :
    stageTrace envAllOk = List.take (stageTrace envAllOk).length stageOrder ∧
      ∃ st, runStages envAllOk (List.take 6 stageOrder) [] = .ok st :=
  C1_sequential_total_order envAllOk 6 (by decide)

/-- C4: a stage that succeeds returns the input state with exactly its
declared output keys added: every key outside the declared set keeps its
value and its presence (no key removed, no extra key), every declared key
is present afterwards, and the declared output sets of distinct stages are
pairwise disjoint, so across a run each state key is written by exactly
one designated stage and never overwritten by a later one. -/
theorem C4_append_only_contract (env : Env) (s : Stage) (st st2 : PyDict)
    (h : runNode env s st = .ok st2) :
    (∀ k, k ∉ declaredOutputs s →
        dictGet st2 k = dictGet st k ∧ dictHasKey st2 k = dictHasKey st k) ∧
      (∀ k, k ∈ declaredOutputs s → dictHasKey st2 k = true) ∧
      (∀ s1 s3 : Stage, s1 ≠ s3 →
        ∀ k, k ∈ declaredOutputs s1 → k ∉ declaredOutputs s3) := by
  refine ⟨?_, ?_, ?_⟩
  · intro k hk
    cases s <;>
      simp only [runNode, node_data_downloader, node_data_preprocessor,
        node_metrics_calculator, node_visualizations, node_news_collector,
        node_report_generator, node_final_report_generator] at h <;>
      simp only [declaredOutputs, List.mem_cons, List.mem_singleton,
        List.not_mem_nil, not_or] at hk <;>
      split at h <;>
      simp only [Except.ok.injEq, reduceCtorEq] at h <;>
      subst h <;>
      simp_all [dictGet_dictSet_ne, dictHasKey_dictSet_ne]
  · intro k hk
    cases s <;>
      simp only [runNode, node_data_downloader, node_data_preprocessor,
        node_metrics_calculator, node_visualizations, node_news_collector,
        node_report_generator, node_final_report_generator] at h <;>
      simp only [declaredOutputs] at hk <;>
      split at h <;>
      simp only [Except.ok.injEq, reduceCtorEq] at h <;>
      subst h <;>
      fin_cases hk <;>
      simp [dictHasKey_dictSet_same, dictHasKey_dictSet_ne]
  · intro s1 s3 hne k hk
    cases s1 <;> cases s3 <;>
      (try exact absurd rfl hne) <;>
      simp only [declaredOutputs] at hk ⊢ <;>
      fin_cases hk <;>
      simp

/-- C4 witness: the downloader node succeeds on the empty state in the
all-successful run and the contract holds for it. -/
theorem C4_append_only_contract_witness :
    (∀ k, k ∉ declaredOutputs .data_downloader →
        dictGet [("downloaded_file_path", some "/tmp/a.csv"),
            ("metadata_file_path", some "/tmp/meta.json")] k = dictGet [] k ∧
          dictHasKey [("downloaded_file_path", some "/tmp/a.csv"),
            ("metadata_file_path", some "/tmp/meta.json")] k = dictHasKey [] k) ∧
      (∀ k, k ∈ declaredOutputs .data_downloader →
        dictHasKey [("downloaded_file_path", some "/tmp/a.csv"),
          ("metadata_file_path", some "/tmp/meta.json")] k = true) ∧
      (∀ s1 s3 : Stage, s1 ≠ s3 →
        ∀ k, k ∈ declaredOutputs s1 → k ∉ declaredOutputs s3) :=
  C4_append_only_contract envAllOk .data_downloader []
    [("downloaded_file_path", some "/tmp/a.csv"),
     ("metadata_file_path", some "/tmp/meta.json")] rfl

/-- C7: two runs with extensionally identical collaborator behaviour
produce identical results: the same final state dict (same keys in the
same insertion order with the same values) and the same invoked-stage
trace. -/
theorem C7_deterministic_replay (e1 e2 : Env)
    (h1 : e1.data_downloader_run = e2.data_downloader_run)
    (h2 : ∀ x, e1.data_preprocessor_run x = e2.data_preprocessor_run x)
    (h3 : ∀ x, e1.metrics_calculator_run x = e2.metrics_calculator_run x)
    (h4 : ∀ x, e1.visualizations_run x = e2.visualizations_run x)
    (h5 : e1.news_collector_run = e2.news_collector_run)
    (h6 : ∀ a b c d, e1.report_generator_run a b c d =
      e2.report_generator_run a b c d)
    (h7 : ∀ a b c d e f, e1.final_report_generator_run a b c d e f =
      e2.final_report_generator_run a b c d e f) :
    workflow_run e1 = workflow_run e2 ∧ stageTrace e1 = stageTrace e2 := by
  have he : e1 = e2 := by
    cases e1
    cases e2
    simp only at h1 h2 h3 h4 h5 h6 h7 ⊢
    subst h1
    subst h5
    congr 1
    · exact funext h2
    · exact funext h3
    · exact funext h4
    · funext a b c d
      exact h6 a b c d
    · funext a b c d e f
      exact h7 a b c d e f
  rw [he]
  exact ⟨rfl, rfl⟩

/-- C7 witness: replaying the all-successful environment gives equal
results. -/
theorem C7_deterministic_replay_witness :
    workflow_run envAllOk = workflow_run envAllOk ∧
      stageTrace envAllOk = stageTrace envAllOk :=
  C7_deterministic_replay envAllOk envAllOk rfl (fun _ => rfl) (fun _ => rfl)
    (fun _ => rfl) rfl (fun _ _ _ _ => rfl) (fun _ _ _ _ _ _ => rfl)

/-- C2 counterexample: the metrics node invoked on a state that lacks
processed_data_file_path, with the translated tool behaviour (the load of
a None path fails inside _load_and_preprocess_data, the tool returns None,
the node subscripts None), raises a plain TypeError; it does not fail with
a MissingDependency failure identifying the key, and no code path can
produce one. -/
theorem C2_missing_dependency_counterexample :
    runNode envMetricsReal .metrics_calculator [] =
        .error (PyErr.typeError, []) ∧
      runNode envMetricsReal .metrics_calculator [] ≠
        .error (PyErr.missingDependency "processed_data_file_path", []) := by
  constructor
  · rfl
  · intro hc
    rw [show runNode envMetricsReal .metrics_calculator [] =
      .error (PyErr.typeError, []) from rfl] at hc
    simp at hc

/-- C2 amended: the stage performs no precondition check on its required
key and never raises MissingDependency.  Invoked with
processed_data_file_path absent (or None), the node passes None into the
tool, the tool attempts the data load, the load fails, the tool reports
None, and the node then raises an uncaught TypeError when subscripting the
None result; the state is left unchanged. -/
theorem C2_missing_key_raises_type_error (env : Env) (fs : CsvFiles)
    (output_dir : String) (st : PyDict)
    (henv : env.metrics_calculator_run = metrics_agent_run fs output_dir)
    (hmiss : dictGet st "processed_data_file_path" = none) :
    runNode env .metrics_calculator st = .error (PyErr.typeError, st) := by
  simp [runNode, node_metrics_calculator, henv, hmiss, metrics_agent_run,
    run_metrics_calculation, load_and_preprocess_data]

/-- C2 witness: the empty initial state lacks the key and the metrics node
raises TypeError on it. -/
theorem C2_missing_key_raises_type_error_witness :
    runNode envMetricsReal .metrics_calculator [] =
      .error (PyErr.typeError, []) :=
  C2_missing_key_raises_type_error envMetricsReal [] "output/metrics" []
    rfl rfl

/-- C3 counterexample: when the download collaborator fails internally and
reports it the way DataDownloaderAgent.run does (returning None), the node
body subscripts the None result and a raw TypeError propagates out of the
entire run; the orchestrator observes a propagating exception, not a
success or a structured failure value, refuting the claim that a stage
error is always converted at the stage boundary. -/
theorem C3_structured_failure_counterexample :
    workflow_run envDownloadFail = .error (PyErr.typeError, []) ∧
      ¬ (∀ (env : Env) (p : PyErr × PyDict), workflow_run env ≠ .error p) := by
  constructor
  · rfl
  · intro hall
    exact hall envDownloadFail (PyErr.typeError, []) (by rfl)

/-- C3 amended: errors inside a stage are only partially contained.  The
tools catch their internal errors and report failure by returning None,
but the node at the stage boundary converts that None into an uncaught
TypeError rather than a structured failure, and the exception propagates
out of the orchestrator with the state unchanged: a run whose download
agent reports failure crashes with TypeError on the empty state. -/
theorem C3_stage_failure_escapes_raw (env : Env) (st : PyDict)
    (h : env.data_downloader_run = .ok none) :
    runNode env .data_downloader st = .error (PyErr.typeError, st) ∧
      workflow_run env = .error (PyErr.typeError, []) := by
  constructor
  · simp [runNode, node_data_downloader, h]
  · simp [workflow_run, stageOrder, runStages, runNode, node_data_downloader, h]

/-- C3 witness: the concrete failing-download run crashes raw. -/
theorem C3_stage_failure_escapes_raw_witness :
    runNode envDownloadFail .data_downloader [] =
        .error (PyErr.typeError, []) ∧
      workflow_run envDownloadFail = .error (PyErr.typeError, []) :=
  C3_stage_failure_escapes_raw envDownloadFail [] rfl

/-- C5: when the first k stages succeed from the empty initial state and
stage k+1 fails, the failing stage adds no keys: the exception carries the
state exactly as it stood at the end of stage k, the whole run aborts with
that exception and that state, and the invoked stages are exactly the
first k+1 of the chain — the orchestrator never advances past the failed
stage. -/
theorem C5_failure_frame (env : Env) (k : Nat) (hs : k < stageOrder.length)
    (stk st2 : PyDict) (e : PyErr)
    (hok : runStages env (List.take k stageOrder) [] = .ok stk)
    (hf : runNode env (stageOrder.get ⟨k, hs⟩) stk = .error (e, st2)) :
    st2 = stk ∧ workflow_run env = .error (e, stk) ∧
      stageTrace env = List.take (k + 1) stageOrder := by
  have hframe := runNode_error_state env _ stk e st2 hf
  rw [hframe] at hf
  refine ⟨hframe, ?_, ?_⟩
  · have hsplit := runStages_append env (List.take k stageOrder)
      (List.drop k stageOrder) []
    rw [List.take_append_drop] at hsplit
    unfold workflow_run
    rw [hsplit, hok]
    rw [drop_eq_get_cons stageOrder k hs]
    simp only [runStages]
    rw [hf]
  · have htr := runStagesTrace_append_ok env (List.take k stageOrder)
      (List.drop k stageOrder) [] stk hok
    rw [List.take_append_drop] at htr
    unfold stageTrace
    rw [htr]
    rw [drop_eq_get_cons stageOrder k hs]
    rw [runStagesTrace_cons_error env _ _ stk (e, stk) hf]
    rw [take_succ_concat stageOrder k hs]

/-- C5 witness: in the run whose visualizations agent fails after three
successful stages, the exception carries exactly the state after the
metrics stage and only four stages are invoked. -/
theorem C5_failure_frame_witness :
    stateAfterMetrics = stateAfterMetrics ∧
      workflow_run envVisFail = .error (PyErr.typeError, stateAfterMetrics) ∧
      stageTrace envVisFail = List.take 4 stageOrder :=
  C5_failure_frame envVisFail 3 (by decide) stateAfterMetrics
    stateAfterMetrics PyErr.typeError (by rfl) (by rfl)

/-- C6 counterexample: the declared artifact-key vocabulary numbers
twelve, not eleven — there is no set of 11 declared artifact keys that
includes final_report_file_path and exhausts the declared outputs — and
the all-successful run returns a final state with twelve entries. -/
theorem C6_eleven_keys_counterexample :
    declaredArtifactKeys.length ≠ 11 ∧ declaredArtifactKeys.length = 12 ∧
      workflow_run envAllOk = .ok finalStateAllOk ∧
      finalStateAllOk.length = 12 := by
  refine ⟨by decide, by decide, by rfl, by decide⟩

/-- The final state of a run in which every stage succeeds, written from
the values its collaborators produced, in node assignment order. -/
def allSuccessFinalState (d1 d2 p pe me v1 v2 v3 v4 n rp f : String) : PyDict :=
  [("downloaded_file_path", some d1), ("metadata_file_path", some d2),
   ("processed_data_file_path", some p), ("periods_file_path", some pe),
   ("metrics_file_path", some me), ("last_30_days_json_file_path", some v1),
   ("last_30_days_plot_file_path", some v2),
   ("last_12_months_json_file_path", some v3),
   ("last_12_months_plot_file_path", some v4), ("news_file_path", some n),
   ("report_file_path", some rp), ("final_report_file_path", some f)]

/-- C6 amended: when all seven stages succeed, each producing its declared
output keys, the final state returned by the orchestrator contains all
twelve declared artifact keys bound to the values the stages produced,
and final_report_file_path is present with the final-report value. -/
theorem C6_all_success_final_state (env : Env)
    (d1 d2 p pe me v1 v2 v3 v4 n rp f : String)
    (h1 : env.data_downloader_run = .ok (some ⟨d1, some d2⟩))
    (h2 : env.data_preprocessor_run (some d1) = .ok (some p))
    (h3 : env.metrics_calculator_run (some p) = .ok (some ⟨pe, me⟩))
    (h4 : env.visualizations_run (some p) = .ok (some ⟨v1, v2, v3, v4⟩))
    (h5 : env.news_collector_run = .ok (some n))
    (h6 : env.report_generator_run (some me) (some v1) (some v3) (some n) =
      .ok (some rp))
    (h7 : env.final_report_generator_run (some d2) (some pe) (some me)
      (some rp) (some v2) (some v4) = .ok (some f)) :
    workflow_run env =
        .ok (allSuccessFinalState d1 d2 p pe me v1 v2 v3 v4 n rp f) ∧
      (∀ k, k ∈ declaredArtifactKeys →
        dictHasKey (allSuccessFinalState d1 d2 p pe me v1 v2 v3 v4 n rp f) k =
          true) ∧
      dictGet (allSuccessFinalState d1 d2 p pe me v1 v2 v3 v4 n rp f)
        "final_report_file_path" = some f := by
  refine ⟨?_, ?_, ?_⟩
  · simp [workflow_run, stageOrder, runStages, runNode, node_data_downloader,
      node_data_preprocessor, node_metrics_calculator, node_visualizations,
      node_news_collector, node_report_generator, node_final_report_generator,
      h1, h2, h3, h4, h5, h6, h7, dictSet, dictGet, allSuccessFinalState]
  · intro k hk
    simp only [declaredArtifactKeys, stageOrder, declaredOutputs] at hk
    fin_cases hk <;> simp [allSuccessFinalState, dictHasKey]
  · simp [allSuccessFinalState, dictGet]

/-- C6 witness: the all-successful dummy run produces the expected
twelve-key final state. -/
theorem C6_all_success_final_state_witness :
    workflow_run envAllOk =
        .ok (allSuccessFinalState "/tmp/a.csv" "/tmp/meta.json"
          "/tmp/processed.csv" "/tmp/periods.json" "/tmp/metrics.json"
          "/tmp/m30.json" "/tmp/m30.png" "/tmp/m12.json" "/tmp/m12.png"
          "/tmp/news.json" "/tmp/report.md" "/tmp/final.html") ∧
      (∀ k, k ∈ declaredArtifactKeys →
        dictHasKey (allSuccessFinalState "/tmp/a.csv" "/tmp/meta.json"
          "/tmp/processed.csv" "/tmp/periods.json" "/tmp/metrics.json"
          "/tmp/m30.json" "/tmp/m30.png" "/tmp/m12.json" "/tmp/m12.png"
          "/tmp/news.json" "/tmp/report.md" "/tmp/final.html") k = true) ∧
      dictGet (allSuccessFinalState "/tmp/a.csv" "/tmp/meta.json"
          "/tmp/processed.csv" "/tmp/periods.json" "/tmp/metrics.json"
          "/tmp/m30.json" "/tmp/m30.png" "/tmp/m12.json" "/tmp/m12.png"
          "/tmp/news.json" "/tmp/report.md" "/tmp/final.html")
        "final_report_file_path" = some "/tmp/final.html" :=
  C6_all_success_final_state envAllOk "/tmp/a.csv" "/tmp/meta.json"
    "/tmp/processed.csv" "/tmp/periods.json" "/tmp/metrics.json"
    "/tmp/m30.json" "/tmp/m30.png" "/tmp/m12.json" "/tmp/m12.png"
    "/tmp/news.json" "/tmp/report.md" "/tmp/final.html"
    rfl rfl rfl rfl rfl rfl rfl

/-- C8: on input data with no case records in the periods being analyzed,
every rate computation of the metrics stage is total and returns zero:
the explicit empty-subset guard of the mortality, UTI-occupancy and
vaccination rate methods returns 0.0, the increase rate returns 0.0 when
both compared periods have zero cases, and the vaccination guard also
returns 0.0 whenever no record in the period has a defined SIM/NAO value;
no minimum-sample-size threshold appears anywhere in these computations. -/
theorem C8_no_records_all_rates_zero (df : List CaseRecord)
    (s e cs ce ps pe : Int) (vaccine_column : CaseRecord → String)
    (hper : filterPeriod df s e = [])
    (hcur : filterPeriod df cs ce = [])
    (hprev : filterPeriod df ps pe = []) :
    calculate_mortality_rate df s e = 0 ∧
      calculate_uti_occupancy_rate df s e = 0 ∧
      calculate_vaccination_rate df s e vaccine_column = 0 ∧
      calculate_increase_rate df cs ce ps pe = .val 0 ∧
      ∀ df2 : List CaseRecord,
        (∀ r, r ∈ filterPeriod df2 s e →
          vaccine_column r ≠ "SIM" ∧ vaccine_column r ≠ "NAO") →
        calculate_vaccination_rate df2 s e vaccine_column = 0 := by
  refine ⟨?_, ?_, ?_, ?_, ?_⟩
  · simp [calculate_mortality_rate, hper]
  · simp [calculate_uti_occupancy_rate, hper]
  · simp [calculate_vaccination_rate, hper]
  · simp [calculate_increase_rate, hcur, hprev]
  · intro df2 hnd
    have hfil : (filterPeriod df2 s e).filter
        (fun r => decide (vaccine_column r = "SIM" ∨ vaccine_column r = "NAO")) =
          [] := by
      rw [List.filter_eq_nil_iff]
      intro r hr
      simp [(hnd r hr).1, (hnd r hr).2]
    simp only [calculate_vaccination_rate]
    rw [hfil]
    simp

/-- C8 witness: one record outside every analyzed period yields all-zero
rates. -/
theorem C8_no_records_all_rates_zero_witness :
    calculate_mortality_rate [⟨100, "CURA", "SIM", "SIM", "SIM"⟩] 0 10 = 0 ∧
      calculate_uti_occupancy_rate [⟨100, "CURA", "SIM", "SIM", "SIM"⟩] 0 10 = 0 ∧
      calculate_vaccination_rate [⟨100, "CURA", "SIM", "SIM", "SIM"⟩] 0 10
        CaseRecord.vacina = 0 ∧
      calculate_increase_rate [⟨100, "CURA", "SIM", "SIM", "SIM"⟩] 0 10
        (-20) (-10) = .val 0 ∧
      ∀ df2 : List CaseRecord,
        (∀ r, r ∈ filterPeriod df2 0 10 →
          CaseRecord.vacina r ≠ "SIM" ∧ CaseRecord.vacina r ≠ "NAO") →
        calculate_vaccination_rate df2 0 10 CaseRecord.vacina = 0 :=
  C8_no_records_all_rates_zero [⟨100, "CURA", "SIM", "SIM", "SIM"⟩]
    0 10 0 10 (-20) (-10) CaseRecord.vacina (by rfl) (by rfl) (by rfl)

/-- C9: when the previous comparison period contains zero cases, the
increase rate is positive infinity exactly when the current period has at
least one case, and 0.0 exactly when the current period also has zero
cases; a finite nonzero rate is impossible in the zero-previous case. -/
theorem C9_increase_rate_zero_previous (df : List CaseRecord)
    (cs ce ps pe : Int)
    (hprev : (filterPeriod df ps pe).length = 0) :
    ((filterPeriod df cs ce).length > 0 →
        calculate_increase_rate df cs ce ps pe = .inf) ∧
      ((filterPeriod df cs ce).length = 0 →
        calculate_increase_rate df cs ce ps pe = .val 0) := by
  constructor <;> intro h <;>
    simp [calculate_increase_rate, hprev, h]

/-- C9 witness: a single case in the current period with an empty previous
period gives infinity. -/
theorem C9_increase_rate_zero_previous_witness :
    ((filterPeriod [⟨5, "CURA", "SIM", "SIM", "SIM"⟩] 0 10).length > 0 →
        calculate_increase_rate [⟨5, "CURA", "SIM", "SIM", "SIM"⟩] 0 10 20 30 =
          .inf) ∧
      ((filterPeriod [⟨5, "CURA", "SIM", "SIM", "SIM"⟩] 0 10).length = 0 →
        calculate_increase_rate [⟨5, "CURA", "SIM", "SIM", "SIM"⟩] 0 10 20 30 =
          .val 0) :=
  C9_increase_rate_zero_previous [⟨5, "CURA", "SIM", "SIM", "SIM"⟩]
    0 10 20 30 (by rfl)

/-- C10: the preprocess tool reports overall failure whenever the metadata
save fails, even though the processed CSV was already written: with a
loadable raw file and a CSV save that succeeds, a failing metadata save
makes run_preprocessing_process return no result dict while the processed
file is on disk; and any successful run requires the metadata save to have
succeeded. -/
theorem C10_metadata_failure_discards_csv (env : PreprocEnv)
    (output_path : String) (df : List RawRow)
    (hload : env.load_raw = some df)
    (hcsv : save_processed_data (clean_and_transform_data df)
      env.csv_write_ok = true)
    (hmeta : env.metadata_write_ok = false) :
    run_preprocessing_process env output_path = (none, true) ∧
      ∀ (env2 : PreprocEnv) (p2 : String),
        ((run_preprocessing_process env2 p2).1).isSome = true →
          env2.metadata_write_ok = true := by
  constructor
  · simp [run_preprocessing_process, hload, hcsv, hmeta]
  · intro env2 p2 hsome
    cases hl : env2.load_raw with
    | none => simp [run_preprocessing_process, hl] at hsome
    | some df2 =>
      by_cases hc : save_processed_data (clean_and_transform_data df2)
          env2.csv_write_ok = false
      · simp [run_preprocessing_process, hl, hc] at hsome
      · cases hmv : env2.metadata_write_ok with
        | false => simp [run_preprocessing_process, hl, hc, hmv] at hsome
        | true => rfl

/-- A concrete preprocessing run: one raw row with a notification date,
the CSV write accepted, the metadata write failing. -/
def preprocEnvMetaFail : PreprocEnv where
  load_raw := some
    [{ dt_notific := some 0
       uti := none
       vacina := none
       vacina_cov := none
       evolucao := none }]
  csv_write_ok := true
  metadata_write_ok := false

/-- C10 witness: the concrete metadata-failure run writes the CSV yet
reports failure. -/
theorem C10_metadata_failure_discards_csv_witness :
    run_preprocessing_process preprocEnvMetaFail "/tmp/processed.csv" =
        (none, true) ∧
      ∀ (env2 : PreprocEnv) (p2 : String),
        ((run_preprocessing_process env2 p2).1).isSome = true →
          env2.metadata_write_ok = true :=
  C10_metadata_failure_discards_csv preprocEnvMetaFail "/tmp/processed.csv"
    [{ dt_notific := some 0, uti := none, vacina := none,
       vacina_cov := none, evolucao := none }] (by rfl) (by rfl) (by rfl)
